import Mathlib

/-!
Verification of the floodgate adaptive-backpressure library.

This file gives a shallow embedding of the Go sources of floodgate
(latency tracker, level classifier, circuit breaker, dispatcher, and the
HTTP/gRPC admission pipelines) and proves properties of that embedding.

Conventions of the embedding:
* `time.Duration` (int64 nanoseconds) is modelled as `Int`; none of the
  properties proved here depend on 64-bit wraparound, which is unreachable
  for the quantities involved (latencies, thresholds, timestamps).
* Go integer division (which truncates toward zero) is `Int.tdiv`; the Go
  arithmetic right shift `>> 10` (which floors) is `Int.fdiv · 1024`.
* `time.Time` values are modelled as `Int` nanosecond timestamps and
  `now.Sub(t)` as subtraction; the monotonic clock only ever compares
  elapsed durations against thresholds.
* Go slices are `List`s; `float64` fields (`percentDrift`) and the float32
  option argument of `WithAlpha` are not modelled: `WithAlpha` is modelled
  as receiving the already-converted fixed-point integer
  `int64(clampedAlpha * 1024)` that the Go closure stores.
-/

namespace Floodgate

/-! ## Level and classifier (level.go) -/

/-- `Level` from level.go: severity of backpressure, in declaration order
`Normal < Warning < Moderate < Critical < Emergency`. -/
inductive Level where
  | Normal
  | Warning
  | Moderate
  | Critical
  | Emergency
deriving DecidableEq, Repr

/-- Numeric severity of a level, i.e. the value of the Go constant
(`Normal Level = iota` … `Emergency`). -/
def Level.sev : Level → Nat
  | .Normal => 0
  | .Warning => 1
  | .Moderate => 2
  | .Critical => 3
  | .Emergency => 4

/-- `Stats` snapshot produced by a tracker (tracker source file).
The `PercentDrift float64` field is omitted (floating point, unused by any
property below). All durations are nanoseconds. -/
structure Stats where
  EMA : Int
  Slope : Int
  Drift : Int
  P50 : Int
  P95 : Int
  P99 : Int
deriving DecidableEq, Repr

/-- `Thresholds` configuration record. -/
structure Thresholds where
  P99Emergency : Int
  P95Critical : Int
  EMACritical : Int
  P95Moderate : Int
  EMAWarning : Int
  SlopeWarning : Int
deriving DecidableEq, Repr

/-- `DefaultThresholds()`: 10 s / 2 s / 500 ms / 1 s / 300 ms / 10 ms in ns. -/
def DefaultThresholds : Thresholds :=
  { P99Emergency := 10000000000
    P95Critical := 2000000000
    EMACritical := 500000000
    P95Moderate := 1000000000
    EMAWarning := 300000000
    SlopeWarning := 10000000 }

/-- `Stats.LevelWithThresholds` from level.go.  The Go locals
`ema := stats.EMA` and `slope := stats.Slope` are inlined.  The fallback
branch divisions `5*thresholds.SlopeWarning/10` etc. are Go int64
divisions, i.e. truncation toward zero (`Int.tdiv`). -/
def Stats.LevelWithThresholds (stats : Stats) (thresholds : Thresholds) : Level :=
  if stats.P95 > 0 ∧ stats.P99 > 0 then
    if stats.P99 > thresholds.P99Emergency then .Emergency
    else if stats.P95 > thresholds.P95Critical ∧ stats.EMA > thresholds.EMACritical then .Critical
    else if stats.P95 > thresholds.P95Moderate then .Moderate
    else if stats.EMA > thresholds.EMAWarning ∨ stats.Slope > thresholds.SlopeWarning then .Warning
    else .Normal
  else
    if stats.Slope > Int.tdiv (5 * thresholds.SlopeWarning) 10 then .Critical
    else if stats.Slope > Int.tdiv (3 * thresholds.SlopeWarning) 10 then .Moderate
    else if stats.Slope > Int.tdiv thresholds.SlopeWarning 10 then .Warning
    else .Normal

/-- `Stats.Level()`: classification with the default thresholds. -/
def Stats.Level (stats : Stats) : Level :=
  stats.LevelWithThresholds DefaultThresholds

/-- The decision table exactly as the specification words it.  The fallback
multipliers `0.5 / 0.3 / 0.1` are the exact rational comparisons, written
by cross-multiplication over `Int` (`Slope > 0.5·w ↔ 2·Slope > w`, etc.).
This definition follows the spec's words and is compared against
`Stats.LevelWithThresholds`, which follows the source. -/
def specClassify (stats : Stats) (thresholds : Thresholds) : Level :=
  if stats.P95 > 0 ∧ stats.P99 > 0 then
    if stats.P99 > thresholds.P99Emergency then .Emergency
    else if stats.P95 > thresholds.P95Critical ∧ stats.EMA > thresholds.EMACritical then .Critical
    else if stats.P95 > thresholds.P95Moderate then .Moderate
    else if stats.EMA > thresholds.EMAWarning ∨ stats.Slope > thresholds.SlopeWarning then .Warning
    else .Normal
  else
    if 2 * stats.Slope > thresholds.SlopeWarning then .Critical
    else if 10 * stats.Slope > 3 * thresholds.SlopeWarning then .Moderate
    else if 10 * stats.Slope > thresholds.SlopeWarning then .Warning
    else .Normal

/-! ## Circuit breaker (circuit breaker source file)

`time.Time` is an `Int` nanosecond timestamp; `now.Sub(t) >= d` becomes
`now - t ≥ d`.  The mutating Go methods become functions returning the new
`CircuitBreaker` (and, for `Allow`, the returned `Bool`). -/

/-- `CircuitState`: Closed / Open / HalfOpen (declaration order). -/
inductive CircuitState where
  | Closed
  | Open
  | HalfOpen
deriving DecidableEq, Repr

/-- The `CircuitBreaker` struct.  The Go `int` counters start at 0 and are
only ever incremented or reset, so they are `Nat`. -/
structure CircuitBreaker where
  state : CircuitState
  failureCount : Nat
  successCount : Nat
  lastStateTime : Int
  maxFailures : Nat
  timeout : Int
  successThreshold : Nat
  minTimeBetweenOps : Int
deriving DecidableEq, Repr

/-- `NewCircuitBreaker(maxFailures, timeout, successThreshold)`;
`lastStateTime: time.Now()` is the explicit `now` argument and
`minTimeBetweenOps` is fixed at `1 * time.Second` = 10⁹ ns. -/
def NewCircuitBreaker (maxFailures : Nat) (timeout : Int) (successThreshold : Nat)
    (now : Int) : CircuitBreaker :=
  { state := .Closed
    failureCount := 0
    successCount := 0
    lastStateTime := now
    maxFailures := maxFailures
    timeout := timeout
    successThreshold := successThreshold
    minTimeBetweenOps := 1000000000 }

/-- `CircuitBreaker.Allow()`: returns the admission decision and the
updated breaker. -/
def CircuitBreaker.Allow (cb : CircuitBreaker) (now : Int) : Bool × CircuitBreaker :=
  match cb.state with
  | .Closed => (true, cb)
  | .Open =>
      if now - cb.lastStateTime ≥ cb.timeout then
        (true, { cb with state := .HalfOpen, successCount := 0, failureCount := 0,
                         lastStateTime := now })
      else
        (false, cb)
  | .HalfOpen => (true, cb)

/-- `CircuitBreaker.RecordSuccess()`. -/
def CircuitBreaker.RecordSuccess (cb : CircuitBreaker) (now : Int) : CircuitBreaker :=
  match cb.state with
  | .HalfOpen =>
      let cb := { cb with successCount := cb.successCount + 1 }
      if cb.successCount ≥ cb.successThreshold then
        if now - cb.lastStateTime ≥ cb.minTimeBetweenOps then
          { cb with state := .Closed, failureCount := 0, successCount := 0,
                    lastStateTime := now }
        else cb
      else cb
  | .Closed => { cb with failureCount := 0 }
  | .Open => cb

/-- `CircuitBreaker.RecordFailure()`. -/
def CircuitBreaker.RecordFailure (cb : CircuitBreaker) (now : Int) : CircuitBreaker :=
  match cb.state with
  | .Closed =>
      let cb := { cb with failureCount := cb.failureCount + 1 }
      if cb.failureCount ≥ cb.maxFailures then
        if now - cb.lastStateTime ≥ cb.minTimeBetweenOps then
          { cb with state := .Open, lastStateTime := now }
        else cb
      else cb
  | .HalfOpen =>
      if now - cb.lastStateTime ≥ cb.minTimeBetweenOps then
        { cb with state := .Open, lastStateTime := now }
      else cb
  | .Open => cb

/-! ## Dispatcher (dispatcher source file)

The bounded channel `inputCh` of capacity `bufSize` is modelled as a
`List` of pending events plus the capacity; the atomic `uint64` counters
are `Nat` (their increments never approach 2⁶⁴ in any property here). -/

/-- A dispatcher event `Event[T]{Target, Value}`; the target tracker is
identified by an abstract id. -/
structure DispatchEvent where
  target : Nat
  value : Int
deriving DecidableEq, Repr

/-- The `Dispatcher` with its channel modelled as pending list + capacity. -/
structure Dispatcher where
  inputCh : List DispatchEvent
  capacity : Nat
  droppedCount : Nat
  totalCount : Nat
deriving DecidableEq, Repr

/-- `NewDispatcher(ctx, bufSize)` before any event is submitted. -/
def NewDispatcher (bufSize : Nat) : Dispatcher :=
  { inputCh := [], capacity := bufSize, droppedCount := 0, totalCount := 0 }

/-- `Dispatcher.Emit(target, value)`: increments the total counter, then
performs the non-blocking channel send (`select` with `default`): the
event is enqueued when the buffer has room, otherwise it is dropped and
the dropped counter is incremented.  A total function: the caller is never
blocked. -/
def Dispatcher.Emit (d : Dispatcher) (ev : DispatchEvent) : Dispatcher :=
  let d := { d with totalCount := d.totalCount + 1 }
  if d.inputCh.length < d.capacity then
    { d with inputCh := d.inputCh ++ [ev] }
  else
    { d with droppedCount := d.droppedCount + 1 }

/-! ## Tracker (tracker source file)

The `emaTracker` struct.  Both mutexes only serialize access and are
dropped; the mutating methods become functions returning the new state.
`sortBuffer` is pure scratch space whose contents are never observable
outside one `calculatePercentiles` call, so only its length is kept.
`percentDrift float64` is omitted (floating point; no property below
mentions it). -/

structure EmaTracker where
  alpha : Int
  alphaComp : Int
  windowSize : Nat
  emaSlice : List Int
  emaNanos : Int
  processCount : Nat
  slope : Int
  drift : Int
  percentileEnabled : Bool
  samples : List Int
  sampleSize : Nat
  sampleIndex : Nat
  sortBufferLen : Nat
  cachedP50 : Int
  cachedP95 : Int
  cachedP99 : Int
  lastPercentileCalcAt : Nat
  percentileCacheValid : Bool
deriving DecidableEq, Repr

/-- The struct literal in `NewTracker` before options are applied:
`alpha: 256, windowSize: 20, percentileEnabled: false, sampleSize: 1000`,
everything else zero-valued. -/
def defaultTracker : EmaTracker :=
  { alpha := 256
    alphaComp := 0
    windowSize := 20
    emaSlice := []
    emaNanos := 0
    processCount := 0
    slope := 0
    drift := 0
    percentileEnabled := false
    samples := []
    sampleSize := 1000
    sampleIndex := 0
    sortBufferLen := 0
    cachedP50 := 0
    cachedP95 := 0
    cachedP99 := 0
    lastPercentileCalcAt := 0
    percentileCacheValid := false }

/-- `WithAlpha` (options.go).  The Go option clamps its float32 argument
into (0,1) at the boundaries only (`alpha <= 0 → 0.01`, `alpha >= 1 →
0.99`) and stores `int64(alpha * 1024)`.  The float conversion cannot be
embedded; the option is modelled as receiving that resulting fixed-point
integer, which for accepted inputs lies in `[0, 1023]`
(e.g. float32 `0.1` gives `int64(102.400…) = 102`). -/
def WithAlpha (fixedPointAlpha : Int) : EmaTracker → EmaTracker :=
  fun t => { t with alpha := fixedPointAlpha, alphaComp := 1024 - fixedPointAlpha }

/-- `WithWindowSize` (options.go): sizes below 4 are clamped to 4. -/
def WithWindowSize (size : Nat) : EmaTracker → EmaTracker :=
  let size := if size < 4 then 4 else size
  fun t => { t with windowSize := size, emaSlice := [] }

/-- `WithPercentiles` (options.go): sizes below 10 are clamped to 10; the
sort buffer is pre-allocated with length `sampleSize`. -/
def WithPercentiles (sampleSize : Nat) : EmaTracker → EmaTracker :=
  let sampleSize := if sampleSize < 10 then 10 else sampleSize
  fun t =>
    { t with percentileEnabled := true, sampleSize := sampleSize, samples := [],
             sortBufferLen := sampleSize }

/-- `NewTracker(opts...)`: apply the options to the default struct, then
set `alphaComp = scale - alpha` (scale = 1024). -/
def NewTracker (opts : List (EmaTracker → EmaTracker)) : EmaTracker :=
  let t := opts.foldl (fun t opt => opt t) defaultTracker
  { t with alphaComp := 1024 - t.alpha }

/-- `calculateTrend`: mean first difference of the EMA window and the
newer-half/older-half drift.  Divisions are Go int64 divisions
(`Int.tdiv`); `n >> 1` is `n / 2` on `Nat`.  The float64 `percentDrift`
assignment is omitted. -/
def calculateTrend (t : EmaTracker) : EmaTracker :=
  let n := t.emaSlice.length
  if n < 4 then
    { t with slope := 0, drift := 0 }
  else
    let slopeSum := (List.zipWith (fun a b => a - b) t.emaSlice.tail t.emaSlice).sum
    let slope := Int.tdiv slopeSum (n - 1)
    let mid := n / 2
    let oldSum := (t.emaSlice.take mid).sum
    let newSum := (t.emaSlice.drop mid).sum
    let historicalAvg := Int.tdiv oldSum mid
    let recentAvg := Int.tdiv newSum (n - mid)
    { t with slope := slope, drift := recentAvg - historicalAvg }

/-- The EMA-mutex section of `emaTracker.Process(duration)` (the body
executed under `t.mu`).  Notes on the translation of `Process`, whose two
lock-delimited halves are `processEmaSection` and
`processPercentileSection`:
* `duration.Nanoseconds()` is the `Int` argument itself;
* the EMA update `(alpha*new + alphaComp*ema) >> 10` floors (`Int.fdiv`);
* the window shift `copy(emaSlice[0:w-1], emaSlice[1:w]);
  emaSlice[w-1] = ema` equals `tail ++ [ema]` at the lengths the code
  reaches (the slice never exceeds `windowSize`);
* `processCount & 0x07 == 0` is `processCount % 8 == 0` for the
  non-negative count;
* `(sampleIndex - int(lastPercentileCalcAt) + sampleSize) % sampleSize`
  is computed on `Nat` as `(sampleIndex + sampleSize -
  lastPercentileCalcAt) % sampleSize`, equal to the Go int expression on
  every state the code can reach (`lastPercentileCalcAt` is always a
  previously stored `sampleIndex`, hence `< sampleSize`). -/
def processEmaSection (t : EmaTracker) (newValue : Int) : EmaTracker :=
  let emaNanos :=
    if t.emaSlice.length = 0 then newValue
    else Int.fdiv (t.alpha * newValue + t.alphaComp * t.emaNanos) 1024
  let emaSlice :=
    if t.emaSlice.length < t.windowSize then t.emaSlice ++ [emaNanos]
    else t.emaSlice.tail ++ [emaNanos]
  let t := { t with emaNanos := emaNanos, emaSlice := emaSlice,
                    processCount := t.processCount + 1 }
  if t.processCount % 8 = 0 then calculateTrend t else t

/-- The percentile-mutex section of `Process`: reservoir write and cache
invalidation. -/
def processPercentileSection (t : EmaTracker) (newValue : Int) : EmaTracker :=
  if t.percentileEnabled then
    let t :=
      if t.samples.length < t.sampleSize then
        { t with samples := t.samples ++ [newValue] }
      else
        { t with samples := t.samples.set t.sampleIndex newValue,
                 sampleIndex := (t.sampleIndex + 1) % t.sampleSize }
    let samplesSinceLastCalc :=
      (t.sampleIndex + t.sampleSize - t.lastPercentileCalcAt) % t.sampleSize
    if samplesSinceLastCalc > t.sampleSize / 10 ∨ ¬ t.percentileCacheValid then
      { t with percentileCacheValid := false }
    else t
  else t

/-- `Process` proper: the EMA-mutex section followed by the
percentile-mutex section. -/
def EmaTracker.Process (t : EmaTracker) (duration : Int) : EmaTracker :=
  processPercentileSection (processEmaSection t duration) duration

/-- `calculatePercentiles`: returns the `(P50, P95, P99)` triple and the
updated tracker.  `sort.Slice` ascending is modelled by
`List.insertionSort (· ≤ ·)`: every ascending sort of an `Int` list
produces the same list, so the choice of algorithm is immaterial.
`sortedSamples[i]` is in range on the path that reads it
(`i < sampleCount ≤` buffer length); `getD … 0` supplies the (never-used)
out-of-range default. -/
def calculatePercentiles (t : EmaTracker) : (Int × Int × Int) × EmaTracker :=
  if ¬ t.percentileEnabled then ((0, 0, 0), t)
  else if t.percentileCacheValid then ((t.cachedP50, t.cachedP95, t.cachedP99), t)
  else
    let sampleCount := t.samples.length
    if sampleCount < 10 then ((0, 0, 0), t)
    else if t.sortBufferLen < sampleCount then ((0, 0, 0), t)
    else
      let sortedSamples := List.insertionSort (· ≤ ·) t.samples
      let p50Index := (sampleCount * 50) / 100
      let p95Index := (sampleCount * 95) / 100
      let p99Index := (sampleCount * 99) / 100
      let p50Index := if p50Index ≥ sampleCount then sampleCount - 1 else p50Index
      let p95Index := if p95Index ≥ sampleCount then sampleCount - 1 else p95Index
      let p99Index := if p99Index ≥ sampleCount then sampleCount - 1 else p99Index
      let c50 := sortedSamples.getD p50Index 0
      let c95 := sortedSamples.getD p95Index 0
      let c99 := sortedSamples.getD p99Index 0
      ((c50, c95, c99),
       { t with cachedP50 := c50, cachedP95 := c95, cachedP99 := c99,
                lastPercentileCalcAt := t.sampleIndex,
                percentileCacheValid := true })

/-- `emaTracker.Value()`: snapshot of EMA/slope/drift plus the percentile
triple; returns the tracker as updated by `calculatePercentiles` (the
cache write). -/
def EmaTracker.Value (t : EmaTracker) : Stats × EmaTracker :=
  let p := calculatePercentiles t
  ({ EMA := t.emaNanos, Slope := t.slope, Drift := t.drift,
     P50 := p.1.1, P95 := p.1.2.1, P99 := p.1.2.2 },
   p.2)

/-- Whether a `Value()` call on state `t` performs a percentile
recomputation, i.e. whether `calculatePercentiles` reaches the
sort-and-cache path instead of the disabled / cached / too-few-samples /
short-buffer early returns. -/
def valueRecomputes (t : EmaTracker) : Bool :=
  t.percentileEnabled && !t.percentileCacheValid &&
    decide (10 ≤ t.samples.length) && decide (t.samples.length ≤ t.sortBufferLen)

/-- `n` successive `Process` calls with the same duration `v`. -/
def processN (t : EmaTracker) (v : Int) : Nat → EmaTracker
  | 0 => t
  | n + 1 => processN (t.Process v) v n

/-- `Process` over a list of durations, in order. -/
def processAll (t : EmaTracker) (samples : List Int) : EmaTracker :=
  samples.foldl (fun t v => t.Process v) t

/-- The scalar EMA recurrence extracted from `Process` for a tracker past
its first sample with `alphaComp = 1024 - alpha`: `M` applications of
`e ↦ (a·v + (1024-a)·e) >> 10` (the shift floors, `Int.fdiv`). -/
def emaIter (a v : Int) (e : Int) : Nat → Int
  | 0 => e
  | n + 1 => emaIter a v (Int.fdiv (a * v + (1024 - a) * e) 1024) n

/-- A tracker with smoothing factor α = 0.498046875 = 510/1024 (exactly
representable in float32, so `WithAlpha` stores the fixed point
α* = int64(0.498046875 · 1024) = 510) whose EMA state has been set to 0
by a first sample. -/
def c4tracker : EmaTracker := (NewTracker [WithAlpha 510]).Process 0

/-! ## Admission pipelines (HTTP middleware and gRPC interceptor)

One request through the middleware/interceptor closure is embedded as a
pure function of the request, the registry-lookup result, the breaker
decision and the tracker snapshot, producing the externally observable
outcome: whether the handler ran, the response, and the breaker /
registry / dispatcher / metrics interactions, in order.  Logging is not
modelled.  Go strings (UTF-8 byte sequences) are modelled as `List Char`;
`strings.HasPrefix` is `List.isPrefixOf` and `+` is `++`.  The fixed
human-readable rejection bodies are modelled by the `RejectReason`
enumeration (their exact bytes play no role in any claim). -/

/-- Calls made on the circuit breaker during one request. -/
inductive BreakerCall where
  | recordFailure
  | recordSuccess
deriving DecidableEq, Repr

/-- Calls made on the metrics collector during one request (gRPC). -/
inductive MetricsCall where
  | recordCircuitState
  | recordRequest
deriving DecidableEq, Repr

/-- The three fixed rejection-body texts of the adapters. -/
inductive RejectReason where
  | circuitBreakerOpen
  | emergencyBackpressure
  | criticalBackpressure
deriving DecidableEq, Repr

/-- Response of the HTTP middleware: handler output passed through, or a
503 with a `Retry-After` header and a reason body. -/
inductive HTTPResponse (R : Type) where
  | handler (result : R)
  | serviceUnavailable (retryAfter : Nat) (body : RejectReason)
deriving DecidableEq, Repr

/-- gRPC status codes used by the interceptor. -/
inductive GrpcCode where
  | ResourceExhausted
  | Unavailable
deriving DecidableEq, Repr

/-- Response of the gRPC interceptor: handler output passed through, or a
status error with a `retry-after` trailer. -/
inductive GrpcResponse (R : Type) where
  | handler (result : R)
  | errorStatus (code : GrpcCode) (retryAfterTrailer : Nat)
deriving DecidableEq, Repr

/-- Externally observable outcome of one request. -/
structure PipelineOutcome (Resp : Type) where
  handlerInvoked : Bool
  response : Resp
  breakerCalls : List BreakerCall
  trackerCreated : Bool
  emitted : Bool
  metricsCalls : List MetricsCall
deriving DecidableEq, Repr

/-- The configuration fields of the HTTP middleware that affect one
request's observable outcome. -/
structure HTTPConfig where
  skipPaths : List (List Char)
  thresholds : Thresholds
  retryAfterEmergency : Nat
  retryAfterCritical : Nat
  retryAfterCircuit : Nat

/-- The route key of the HTTP middleware: `r.Method + " " + path`. -/
def routeKey (method path : List Char) : List Char :=
  method ++ [' '] ++ path

/-- One request through the HTTP middleware closure (http middleware
source file).  Parameters stand for the environment interactions:
`trackerPresent` is the `registry.Get(routeKey)` hit, `allowResult` is
`circuitBreaker.Allow()`, `stats` is `tracker.Value()`, `handlerResult`
is what `next.ServeHTTP` produces.  The skip check tests the URL *path*
(`r.URL.Path`) against each prefix.  The middleware has no metrics
collector (only log output), so `metricsCalls` is always `[]`. -/
def middlewareHandle {R : Type} (cfg : HTTPConfig) (method path : List Char)
    (trackerPresent : Bool) (allowResult : Bool) (stats : Stats)
    (handlerResult : R) : PipelineOutcome (HTTPResponse R) :=
  if cfg.skipPaths.any (fun skipPrefix => List.isPrefixOf skipPrefix path) then
    { handlerInvoked := true, response := .handler handlerResult,
      breakerCalls := [], trackerCreated := false, emitted := false,
      metricsCalls := [] }
  else
    let created := !trackerPresent
    if !allowResult then
      { handlerInvoked := false,
        response := .serviceUnavailable cfg.retryAfterCircuit .circuitBreakerOpen,
        breakerCalls := [], trackerCreated := created, emitted := false,
        metricsCalls := [] }
    else
      match stats.LevelWithThresholds cfg.thresholds with
      | .Emergency =>
          { handlerInvoked := false,
            response := .serviceUnavailable cfg.retryAfterEmergency .emergencyBackpressure,
            breakerCalls := [.recordFailure], trackerCreated := created,
            emitted := false, metricsCalls := [] }
      | .Critical =>
          { handlerInvoked := false,
            response := .serviceUnavailable cfg.retryAfterCritical .criticalBackpressure,
            breakerCalls := [.recordFailure], trackerCreated := created,
            emitted := false, metricsCalls := [] }
      | .Warning =>
          { handlerInvoked := true, response := .handler handlerResult,
            breakerCalls := [], trackerCreated := created, emitted := true,
            metricsCalls := [] }
      | .Moderate =>
          { handlerInvoked := true, response := .handler handlerResult,
            breakerCalls := [], trackerCreated := created, emitted := true,
            metricsCalls := [] }
      | .Normal =>
          { handlerInvoked := true, response := .handler handlerResult,
            breakerCalls := [.recordSuccess], trackerCreated := created,
            emitted := true, metricsCalls := [] }

/-- The configuration fields of the gRPC interceptor that affect one
request's observable outcome. -/
structure GrpcConfig where
  skipMethods : List (List Char)
  thresholds : Thresholds
  retryAfterEmergency : Nat
  retryAfterCritical : Nat
  retryAfterCircuit : Nat

/-- One request through the gRPC unary interceptor closure
(grpc/interceptor.go).  `method` is `info.FullMethod` (for gRPC this full
method path is also the registry key); the other parameters are as in
`middlewareHandle`.  The interceptor records metrics: circuit-state plus
a rejected request record on the three rejection paths, a circuit-state
record on Normal, and a completion request record after every invoked
handler. -/
def interceptorHandle {R : Type} (cfg : GrpcConfig) (method : List Char)
    (trackerPresent : Bool) (allowResult : Bool) (stats : Stats)
    (handlerResult : R) : PipelineOutcome (GrpcResponse R) :=
  if cfg.skipMethods.any (fun skipPrefix => List.isPrefixOf skipPrefix method) then
    { handlerInvoked := true, response := .handler handlerResult,
      breakerCalls := [], trackerCreated := false, emitted := false,
      metricsCalls := [] }
  else
    let created := !trackerPresent
    if !allowResult then
      { handlerInvoked := false,
        response := .errorStatus .Unavailable cfg.retryAfterCircuit,
        breakerCalls := [], trackerCreated := created, emitted := false,
        metricsCalls := [.recordCircuitState, .recordRequest] }
    else
      match stats.LevelWithThresholds cfg.thresholds with
      | .Emergency =>
          { handlerInvoked := false,
            response := .errorStatus .ResourceExhausted cfg.retryAfterEmergency,
            breakerCalls := [.recordFailure], trackerCreated := created,
            emitted := false, metricsCalls := [.recordCircuitState, .recordRequest] }
      | .Critical =>
          { handlerInvoked := false,
            response := .errorStatus .ResourceExhausted cfg.retryAfterCritical,
            breakerCalls := [.recordFailure], trackerCreated := created,
            emitted := false, metricsCalls := [.recordCircuitState, .recordRequest] }
      | .Warning =>
          { handlerInvoked := true, response := .handler handlerResult,
            breakerCalls := [], trackerCreated := created, emitted := true,
            metricsCalls := [.recordRequest] }
      | .Moderate =>
          { handlerInvoked := true, response := .handler handlerResult,
            breakerCalls := [], trackerCreated := created, emitted := true,
            metricsCalls := [.recordRequest] }
      | .Normal =>
          { handlerInvoked := true, response := .handler handlerResult,
            breakerCalls := [.recordSuccess], trackerCreated := created,
            emitted := true, metricsCalls := [.recordCircuitState, .recordRequest] }

/-- The C3 scenario's fresh tracker: percentiles enabled with reservoir
size 1000 (`NewTracker(WithPercentiles(1000))`). -/
def c3fresh : EmaTracker := NewTracker [WithPercentiles 1000]

/-- The tracker state right after a `Value()` call on a reservoir of 1000
identical 7 ns samples: full `samples` ring, freshly cached percentiles
(`percentileCacheValid` as given, `lastPercentileCalcAt = 0`), saturated
EMA window of 7s, rolling index `i`, and `n` samples processed. -/
def c3state (n i : Nat) (valid : Bool) : EmaTracker :=
  { alpha := 256, alphaComp := 768, windowSize := 20,
    emaSlice := [7, 7, 7, 7, 7, 7, 7, 7, 7, 7, 7, 7, 7, 7, 7, 7, 7, 7, 7, 7],
    emaNanos := 7, processCount := n,
    slope := 0, drift := 0, percentileEnabled := true,
    samples := List.replicate 1000 7, sampleSize := 1000, sampleIndex := i,
    sortBufferLen := 1000, cachedP50 := 7, cachedP95 := 7, cachedP99 := 7,
    lastPercentileCalcAt := 0, percentileCacheValid := valid }

/-- Concrete HTTP configuration used in the `admission_by_level` witness. -/
def cfgHW : HTTPConfig := ⟨[], DefaultThresholds, 10, 5, 30⟩

/-- Concrete gRPC configuration used in the `admission_by_level` witness. -/
def cfgGW : GrpcConfig := ⟨[], DefaultThresholds, 10, 5, 30⟩

/-- Concrete configuration (skip prefix `/h`) for the
`skip_prefix_identity` witness. -/
def cfgSkipW : HTTPConfig := ⟨[['/', 'h']], DefaultThresholds, 10, 5, 30⟩

/-- Concrete gRPC configuration (skip prefix `/h`) for the
`skip_prefix_identity` witness. -/
def cfgSkipGW : GrpcConfig := ⟨[['/', 'h']], DefaultThresholds, 10, 5, 30⟩

/-- Configuration whose skip prefix is the full composite key
`GET /health`, used to refute the key-based reading of the skip check. -/
def cfgKeySkip : HTTPConfig :=
  ⟨[['G', 'E', 'T', ' ', '/', 'h', 'e', 'a', 'l', 't', 'h']], DefaultThresholds, 10, 5, 30⟩


/-! ## Theorems -/

/-- For a non-negative dividend, the Go (truncating) division by 10
agrees with exact rational comparison by cross-multiplication. -/
theorem tdiv_ten_lt (a n : Int) (ha : 0 ≤ a) : Int.tdiv a 10 < n ↔ a < n * 10 := by
  rw [Int.tdiv_eq_ediv ha (by norm_num)]
  exact Int.ediv_lt_iff_lt_mul (by norm_num)

/-- Claim C1 (amended): for every snapshot and every thresholds record
whose `SlopeWarning` is non-negative, `Stats.LevelWithThresholds` returns
the first matching rule of the spec's decision table, with the fallback
multipliers 0.5/0.3/0.1 read exactly.  (For negative `SlopeWarning` the
code's truncating integer divisions differ from the exact multipliers;
see the counterexample.) -/
theorem classifier_eq_spec_table (stats : Stats) (thresholds : Thresholds)
    (hw : 0 ≤ thresholds.SlopeWarning) :
    stats.LevelWithThresholds thresholds = specClassify stats thresholds := by
  have h5 : (Int.tdiv (5 * thresholds.SlopeWarning) 10 < stats.Slope) =
      (thresholds.SlopeWarning < 2 * stats.Slope) := by
    rw [tdiv_ten_lt _ _ (by linarith)]
    exact propext (by omega)
  have h3 : (Int.tdiv (3 * thresholds.SlopeWarning) 10 < stats.Slope) =
      (3 * thresholds.SlopeWarning < 10 * stats.Slope) := by
    rw [tdiv_ten_lt _ _ (by linarith)]
    exact propext (by omega)
  have h1 : (Int.tdiv thresholds.SlopeWarning 10 < stats.Slope) =
      (thresholds.SlopeWarning < 10 * stats.Slope) := by
    rw [tdiv_ten_lt _ _ hw]
    exact propext (by omega)
  unfold Stats.LevelWithThresholds specClassify
  simp only [gt_iff_lt, h5, h3, h1]

/-- Witness for `classifier_eq_spec_table` at the default thresholds and a
concrete snapshot. -/
theorem classifier_eq_spec_table_witness :
    (0 : Int) ≤ DefaultThresholds.SlopeWarning ∧
    Stats.LevelWithThresholds ⟨400000000, 0, 0, 0, 1, 1⟩ DefaultThresholds =
      specClassify ⟨400000000, 0, 0, 0, 1, 1⟩ DefaultThresholds :=
  ⟨by decide, classifier_eq_spec_table _ _ (by decide)⟩

/-- Claim C1 counterexample: with percentiles unavailable, `Slope = -2` ns
and `SlopeWarning = -5` ns, the exact table gives Critical
(`-2 > 0.5 · (-5) = -2.5`) but the code's truncating division
(`5*(-5)/10 = -2` in Go) yields Normal. -/
theorem classifier_spec_table_counterexample :
    Stats.LevelWithThresholds ⟨0, -2, 0, 0, 0, 0⟩ ⟨0, 0, 0, 0, 0, -5⟩ = .Normal ∧
    specClassify ⟨0, -2, 0, 0, 0, 0⟩ ⟨0, 0, 0, 0, 0, -5⟩ = .Critical := by
  constructor <;> rfl

/-- Claim C6: in the Open state, `Allow` returns `false` (and leaves the
breaker unchanged) strictly before `timeout` has elapsed since the
transition; at or after `timeout` it moves to HalfOpen, zeros both
counters, stamps the state-change time with `now`, and returns `true`. -/
theorem breaker_open_allow (cb : CircuitBreaker) (now : Int)
    (h : cb.state = .Open) :
    (now - cb.lastStateTime < cb.timeout → cb.Allow now = (false, cb)) ∧
    (cb.timeout ≤ now - cb.lastStateTime →
      cb.Allow now = (true, { cb with state := .HalfOpen, successCount := 0,
                                      failureCount := 0, lastStateTime := now })) := by
  constructor <;> intro hc
  · have hn : ¬ (now - cb.lastStateTime ≥ cb.timeout) := by omega
    simp [CircuitBreaker.Allow, h, hn]
  · simp [CircuitBreaker.Allow, h, hc]

/-- Witness for `breaker_open_allow`: a breaker that opened at time 0 with
a 30 ns timeout, probed at time 40. -/
theorem breaker_open_allow_witness :
    (⟨.Open, 2, 0, 0, 3, 30, 5, 1000000000⟩ : CircuitBreaker).state = .Open ∧
    (30 : Int) ≤ 40 - 0 ∧
    CircuitBreaker.Allow ⟨.Open, 2, 0, 0, 3, 30, 5, 1000000000⟩ 40 =
      (true, ⟨.HalfOpen, 0, 0, 40, 3, 30, 5, 1000000000⟩) :=
  ⟨rfl, by decide, (breaker_open_allow _ 40 rfl).2 (by decide)⟩

/-- Claim C7: a `RecordFailure` in HalfOpen strictly less than
`minTimeBetweenOps` after entering HalfOpen leaves the breaker unchanged
(still HalfOpen); once at least `minTimeBetweenOps` has elapsed it
transitions back to Open and stamps the time.  The constructor fixes
`minTimeBetweenOps` at 1 s = 10⁹ ns. -/
theorem breaker_halfopen_failure_dampened (cb : CircuitBreaker) (now : Int)
    (h : cb.state = .HalfOpen) :
    (now - cb.lastStateTime < cb.minTimeBetweenOps → cb.RecordFailure now = cb) ∧
    (cb.minTimeBetweenOps ≤ now - cb.lastStateTime →
      cb.RecordFailure now = { cb with state := .Open, lastStateTime := now }) ∧
    (∀ (mf st : Nat) (t n0 : Int),
      (NewCircuitBreaker mf t st n0).minTimeBetweenOps = 1000000000) := by
  refine ⟨?_, ?_, fun _ _ _ _ => rfl⟩ <;> intro hc
  · have hn : ¬ (now - cb.lastStateTime ≥ cb.minTimeBetweenOps) := by omega
    simp [CircuitBreaker.RecordFailure, h, hn]
  · simp [CircuitBreaker.RecordFailure, h, hc]

/-- Witness for `breaker_halfopen_failure_dampened`: a breaker that
entered HalfOpen at time 0 with the constructor's 10⁹ ns rate limit,
failing at time 5 (within the limit): the state stays HalfOpen. -/
theorem breaker_halfopen_failure_dampened_witness :
    (⟨.HalfOpen, 0, 1, 0, 3, 30, 5, 1000000000⟩ : CircuitBreaker).state = .HalfOpen ∧
    (5 : Int) - 0 < 1000000000 ∧
    CircuitBreaker.RecordFailure ⟨.HalfOpen, 0, 1, 0, 3, 30, 5, 1000000000⟩ 5 =
      ⟨.HalfOpen, 0, 1, 0, 3, 30, 5, 1000000000⟩ :=
  ⟨rfl, by decide, (breaker_halfopen_failure_dampened _ 5 rfl).1 (by decide)⟩

/-- Claim C8 (amended): `Emit` is a total function of the dispatcher state
(the caller is never blocked); it increments the total counter on *every*
call; when the channel has free capacity the event is enqueued, and when
it is full the event is dropped and the dropped counter is also
incremented. -/
theorem emit_nonblocking_counters (d : Dispatcher) (ev : DispatchEvent) :
    (d.Emit ev).totalCount = d.totalCount + 1 ∧
    (d.inputCh.length < d.capacity →
      d.Emit ev = { d with inputCh := d.inputCh ++ [ev],
                           totalCount := d.totalCount + 1 }) ∧
    (d.capacity ≤ d.inputCh.length →
      d.Emit ev = { d with droppedCount := d.droppedCount + 1,
                           totalCount := d.totalCount + 1 }) := by
  refine ⟨?_, ?_, ?_⟩
  · by_cases hc : d.inputCh.length < d.capacity <;> simp [Dispatcher.Emit, hc]
  · intro hc; simp [Dispatcher.Emit, hc]
  · intro hc
    have hn : ¬ d.inputCh.length < d.capacity := by omega
    simp [Dispatcher.Emit, hn]

/-- Witness for `emit_nonblocking_counters`: an empty dispatcher of
capacity 1 enqueues the event and counts it. -/
theorem emit_nonblocking_counters_witness :
    ([] : List DispatchEvent).length < 1 ∧
    Dispatcher.Emit ⟨[], 1, 0, 0⟩ ⟨0, 7⟩ = ⟨[⟨0, 7⟩], 1, 0, 1⟩ :=
  ⟨by decide, (emit_nonblocking_counters ⟨[], 1, 0, 0⟩ ⟨0, 7⟩).2.1 (by decide)⟩

/-- Claim C8 counterexample: on a full channel (capacity 1, one pending
event) `Emit` drops the event and increments the dropped counter, but the
total counter still advances from 5 to 6, refuting "the total counter is
incremented only in the enqueue case". -/
theorem emit_total_counter_counterexample :
    (Dispatcher.Emit ⟨[⟨0, 3⟩], 1, 0, 5⟩ ⟨1, 7⟩).droppedCount = 1 ∧
    (Dispatcher.Emit ⟨[⟨0, 3⟩], 1, 0, 5⟩ ⟨1, 7⟩).inputCh = [⟨0, 3⟩] ∧
    (Dispatcher.Emit ⟨[⟨0, 3⟩], 1, 0, 5⟩ ⟨1, 7⟩).totalCount = 6 := by
  refine ⟨rfl, rfl, rfl⟩

/-- Claim C5: for every request that reaches and passes the breaker gate
(not skipped, `Allow() = true`), both adapters reject without invoking
the handler and call `RecordFailure` exactly when the classified level is
Emergency or Critical; on Moderate or Warning they admit and perform no
breaker operation; on Normal they admit and call `RecordSuccess`. -/
theorem admission_by_level {R : Type} (cfgH : HTTPConfig) (cfgG : GrpcConfig)
    (method path : List Char) (trackerPresent : Bool) (stats : Stats) (r : R)
    (hH : cfgH.skipPaths.any (fun skipPrefix => List.isPrefixOf skipPrefix path) = false)
    (hG : cfgG.skipMethods.any (fun skipPrefix => List.isPrefixOf skipPrefix method) = false) :
    (let o := middlewareHandle cfgH method path trackerPresent true stats r
     let lv := stats.LevelWithThresholds cfgH.thresholds
     ((o.handlerInvoked = false ∧ o.breakerCalls = [.recordFailure]) ↔
        (lv = .Emergency ∨ lv = .Critical)) ∧
     ((lv = .Moderate ∨ lv = .Warning) →
        o.handlerInvoked = true ∧ o.breakerCalls = []) ∧
     (lv = .Normal →
        o.handlerInvoked = true ∧ o.breakerCalls = [.recordSuccess])) ∧
    (let o := interceptorHandle cfgG method trackerPresent true stats r
     let lv := stats.LevelWithThresholds cfgG.thresholds
     ((o.handlerInvoked = false ∧ o.breakerCalls = [.recordFailure]) ↔
        (lv = .Emergency ∨ lv = .Critical)) ∧
     ((lv = .Moderate ∨ lv = .Warning) →
        o.handlerInvoked = true ∧ o.breakerCalls = []) ∧
     (lv = .Normal →
        o.handlerInvoked = true ∧ o.breakerCalls = [.recordSuccess])) := by
  constructor
  · cases hlv : stats.LevelWithThresholds cfgH.thresholds <;>
      simp [middlewareHandle, hH, hlv]
  · cases hlv : stats.LevelWithThresholds cfgG.thresholds <;>
      simp [interceptorHandle, hG, hlv]

/-- Witness for `admission_by_level`: an all-zero snapshot classifies as
Normal, so the request is admitted and a success is recorded. -/
theorem admission_by_level_witness :
    cfgHW.skipPaths.any (fun skipPrefix => List.isPrefixOf skipPrefix ['b']) = false ∧
    (middlewareHandle cfgHW ['a'] ['b'] true true ⟨0, 0, 0, 0, 0, 0⟩
        (0 : Nat)).breakerCalls = [.recordSuccess] :=
  ⟨by decide,
   ((admission_by_level cfgHW cfgGW ['a'] ['b'] true ⟨0, 0, 0, 0, 0, 0⟩ 0
      (by decide) (by decide)).1.2.2 (by decide)).2⟩

/-- Claim C9 (amended): the skip check matches the configured prefixes
against the URL *path* for HTTP (not against the composite
`METHOD + " " + PATH` registry key) and against the full method path for
gRPC (which coincides with the key).  A matching request forwards to the
handler, passes its return value through unchanged, creates no tracker,
and performs no breaker, dispatcher, or metrics interaction. -/
theorem skip_prefix_identity {R : Type} (cfgH : HTTPConfig) (cfgG : GrpcConfig)
    (method path : List Char) (trackerPresent allowResult : Bool) (stats : Stats)
    (r : R)
    (hH : cfgH.skipPaths.any (fun skipPrefix => List.isPrefixOf skipPrefix path) = true)
    (hG : cfgG.skipMethods.any (fun skipPrefix => List.isPrefixOf skipPrefix method) = true) :
    middlewareHandle cfgH method path trackerPresent allowResult stats r =
      { handlerInvoked := true, response := .handler r, breakerCalls := [],
        trackerCreated := false, emitted := false, metricsCalls := [] } ∧
    interceptorHandle cfgG method trackerPresent allowResult stats r =
      { handlerInvoked := true, response := .handler r, breakerCalls := [],
        trackerCreated := false, emitted := false, metricsCalls := [] } := by
  constructor
  · simp [middlewareHandle, hH]
  · simp [interceptorHandle, hG]

/-- Witness for `skip_prefix_identity` on the path `/h`. -/
theorem skip_prefix_identity_witness :
    cfgSkipW.skipPaths.any (fun skipPrefix => List.isPrefixOf skipPrefix ['/', 'h']) = true ∧
    middlewareHandle cfgSkipW ['G'] ['/', 'h'] false true ⟨0, 0, 0, 0, 0, 0⟩ (7 : Nat) =
      { handlerInvoked := true, response := .handler 7, breakerCalls := [],
        trackerCreated := false, emitted := false, metricsCalls := [] } :=
  ⟨by decide,
   (skip_prefix_identity cfgSkipW cfgSkipGW ['/', 'h'] ['/', 'h'] false true
      ⟨0, 0, 0, 0, 0, 0⟩ 7 (by decide) (by decide)).1⟩

/-- Claim C9 counterexample: for a `GET /health` request, the endpoint key
`METHOD + " " + PATH` begins with the configured skip prefix
`GET /health`, yet the middleware does *not* skip it: it matches prefixes
against the path `/health` only, so the request is tracked — a tracker is
created, the breaker is touched (Normal ⇒ `RecordSuccess`) and the sample
is emitted, contradicting the claimed skip behaviour. -/
theorem skip_key_counterexample :
    List.isPrefixOf
      (cfgKeySkip.skipPaths.headD [])
      (routeKey ['G', 'E', 'T'] ['/', 'h', 'e', 'a', 'l', 't', 'h']) = true ∧
    (middlewareHandle cfgKeySkip ['G', 'E', 'T'] ['/', 'h', 'e', 'a', 'l', 't', 'h']
        false true ⟨0, 0, 0, 0, 0, 0⟩ (0 : Nat)).trackerCreated = true ∧
    (middlewareHandle cfgKeySkip ['G', 'E', 'T'] ['/', 'h', 'e', 'a', 'l', 't', 'h']
        false true ⟨0, 0, 0, 0, 0, 0⟩ (0 : Nat)).breakerCalls = [.recordSuccess] ∧
    (middlewareHandle cfgKeySkip ['G', 'E', 'T'] ['/', 'h', 'e', 'a', 'l', 't', 'h']
        false true ⟨0, 0, 0, 0, 0, 0⟩ (0 : Nat)).emitted = true := by
  refine ⟨by decide, by decide, by decide, by decide⟩

set_option maxHeartbeats 2000000 in
/-- Claim C2 (amended): for fixed thresholds, increasing EMA alone or
Slope alone never lowers the level, for any snapshot; increasing P95
alone (resp. P99 alone) never lowers the level provided the change cannot
flip the percentile-availability branch, i.e. when the field was already
positive or the *other* percentile is non-positive.  (Increasing P95 or
P99 from 0 while the other is positive can switch the classifier from the
slope-only fallback into the percentile branch and lower the level; see
the counterexample.) -/
theorem classifier_monotone (th : Thresholds) (s : Stats) :
    (∀ x, s.EMA ≤ x →
      (s.LevelWithThresholds th).sev ≤
        (({ s with EMA := x } : Stats).LevelWithThresholds th).sev) ∧
    (∀ x, s.Slope ≤ x →
      (s.LevelWithThresholds th).sev ≤
        (({ s with Slope := x } : Stats).LevelWithThresholds th).sev) ∧
    (∀ x, s.P95 ≤ x → (0 < s.P95 ∨ s.P99 ≤ 0) →
      (s.LevelWithThresholds th).sev ≤
        (({ s with P95 := x } : Stats).LevelWithThresholds th).sev) ∧
    (∀ x, s.P99 ≤ x → (0 < s.P99 ∨ s.P95 ≤ 0) →
      (s.LevelWithThresholds th).sev ≤
        (({ s with P99 := x } : Stats).LevelWithThresholds th).sev) := by
  obtain ⟨ema, slope, drift, p50, p95, p99⟩ := s
  refine ⟨?_, ?_, ?_, ?_⟩
  · intro x hx
    simp only [Stats.LevelWithThresholds]
    split_ifs <;> simp_all [Level.sev] <;> omega
  · intro x hx
    simp only [Stats.LevelWithThresholds]
    split_ifs <;> simp_all [Level.sev] <;> omega
  · intro x hx hb
    simp only [Stats.LevelWithThresholds]
    split_ifs <;> simp_all [Level.sev] <;> omega
  · intro x hx hb
    simp only [Stats.LevelWithThresholds]
    split_ifs <;> simp_all [Level.sev] <;> omega

/-- Witness for `classifier_monotone`: raising P99 from 1 to 2 (with P99
already positive) does not lower the level of an all-quiet snapshot. -/
theorem classifier_monotone_witness :
    ((⟨0, 0, 0, 0, 1, 1⟩ : Stats).P99 ≤ 2 ∧ (0 : Int) < 1) ∧
    ((⟨0, 0, 0, 0, 1, 1⟩ : Stats).LevelWithThresholds DefaultThresholds).sev ≤
      ((⟨0, 0, 0, 0, 1, 2⟩ : Stats).LevelWithThresholds DefaultThresholds).sev :=
  ⟨⟨by decide, by decide⟩,
   (classifier_monotone DefaultThresholds ⟨0, 0, 0, 0, 1, 1⟩).2.2.2 2
     (by decide) (Or.inl (by decide))⟩

/-- Claim C2 counterexample: with the default thresholds, the snapshot
(EMA 0, Slope 20 ms, P95 1 ns, P99 0) classifies through the slope-only
fallback as Critical; raising only P99 from 0 to 1 ns switches the
classifier into the percentile branch, which yields Warning — increasing
P99 alone strictly lowered the level. -/
theorem classifier_monotone_counterexample :
    (⟨0, 20000000, 0, 0, 1, 0⟩ : Stats).LevelWithThresholds DefaultThresholds
      = .Critical ∧
    (⟨0, 20000000, 0, 0, 1, 1⟩ : Stats).LevelWithThresholds DefaultThresholds
      = .Warning ∧
    Level.sev .Warning < Level.sev .Critical := by
  refine ⟨rfl, rfl, by decide⟩

/-- `calculateTrend` only writes `slope` and `drift`. -/
theorem calculateTrend_preserves (t : EmaTracker) :
    (calculateTrend t).emaNanos = t.emaNanos ∧
    (calculateTrend t).emaSlice = t.emaSlice ∧
    (calculateTrend t).alpha = t.alpha ∧
    (calculateTrend t).alphaComp = t.alphaComp := by
  unfold calculateTrend
  dsimp only
  split_ifs <;> exact ⟨rfl, rfl, rfl, rfl⟩

/-- `processPercentileSection` only writes percentile state. -/
theorem processPercentileSection_preserves (t : EmaTracker) (v : Int) :
    (processPercentileSection t v).emaNanos = t.emaNanos ∧
    (processPercentileSection t v).emaSlice = t.emaSlice ∧
    (processPercentileSection t v).alpha = t.alpha ∧
    (processPercentileSection t v).alphaComp = t.alphaComp := by
  unfold processPercentileSection
  dsimp only
  split_ifs <;> exact ⟨rfl, rfl, rfl, rfl⟩

/-- Effect of one `Process` call on the EMA value and the fields that
drive it: the EMA becomes the sample on the first call and the fixed
point update afterwards; the window is non-empty afterwards; `alpha` and
`alphaComp` never change. -/
theorem process_ema_effect (t : EmaTracker) (v : Int) :
    (t.Process v).emaNanos =
      (if t.emaSlice.length = 0 then v
       else Int.fdiv (t.alpha * v + t.alphaComp * t.emaNanos) 1024) ∧
    (t.Process v).emaSlice ≠ [] ∧
    (t.Process v).alpha = t.alpha ∧
    (t.Process v).alphaComp = t.alphaComp := by
  have hp := processPercentileSection_preserves (processEmaSection t v) v
  have he : (processEmaSection t v).emaNanos =
      (if t.emaSlice.length = 0 then v
       else Int.fdiv (t.alpha * v + t.alphaComp * t.emaNanos) 1024) ∧
      (processEmaSection t v).emaSlice ≠ [] ∧
      (processEmaSection t v).alpha = t.alpha ∧
      (processEmaSection t v).alphaComp = t.alphaComp := by
    unfold processEmaSection
    dsimp only
    split_ifs <;>
      refine ⟨?_, ?_, ?_, ?_⟩ <;>
      first
        | rfl
        | exact (calculateTrend_preserves _).1
        | exact (calculateTrend_preserves _).2.2.1
        | exact (calculateTrend_preserves _).2.2.2
        | exact List.ne_nil_of_length_pos (by simp)
        | (rw [(calculateTrend_preserves _).2.1]
           exact List.ne_nil_of_length_pos (by simp))
  exact ⟨hp.1.trans he.1, hp.2.1 ▸ he.2.1, hp.2.2.1.trans he.2.2.1,
         hp.2.2.2.trans he.2.2.2⟩

/-- Convexity of the fixed-point EMA update: with `0 ≤ a ≤ 1024` the
updated EMA stays inside any interval containing both operands. -/
theorem emaUpdate_bounds (a v e lo hi : Int) (ha0 : 0 ≤ a) (ha1 : a ≤ 1024)
    (hv1 : lo ≤ v) (hv2 : v ≤ hi) (he1 : lo ≤ e) (he2 : e ≤ hi) :
    lo ≤ Int.fdiv (a * v + (1024 - a) * e) 1024 ∧
    Int.fdiv (a * v + (1024 - a) * e) 1024 ≤ hi := by
  have h1 : lo * 1024 ≤ a * v + (1024 - a) * e := by nlinarith
  have h2 : a * v + (1024 - a) * e ≤ 1024 * hi := by nlinarith
  rw [Int.fdiv_eq_ediv _ (by norm_num)]
  constructor
  · exact (Int.le_ediv_iff_mul_le (by norm_num)).2 h1
  · calc (a * v + (1024 - a) * e) / 1024 ≤ 1024 * hi / 1024 :=
          Int.ediv_le_ediv (by norm_num) h2
      _ = hi := Int.mul_ediv_cancel_left hi (by norm_num)

/-- Claim C10, generalized for induction: starting from any tracker whose
EMA lies in `[0, M]`, processing non-negative samples keeps the EMA
between 0 and the running maximum `samples.foldl max M`. -/
theorem processAll_ema_bounds (a : Int) (ha0 : 0 ≤ a) (ha1 : a ≤ 1024) :
    ∀ (samples : List Int) (t : EmaTracker) (M : Int),
      t.alpha = a → t.alphaComp = 1024 - a →
      0 ≤ t.emaNanos → t.emaNanos ≤ M →
      (∀ v ∈ samples, 0 ≤ v) →
      0 ≤ (processAll t samples).emaNanos ∧
      (processAll t samples).emaNanos ≤ samples.foldl max M
  | [], t, M, _, _, h0, hM, _ => ⟨h0, hM⟩
  | v :: rest, t, M, hα, hc, h0, hM, hpos => by
    have hv : 0 ≤ v := hpos v (List.mem_cons_self v rest)
    have heff := process_ema_effect t v
    have hstep : 0 ≤ (t.Process v).emaNanos ∧ (t.Process v).emaNanos ≤ max M v := by
      rw [heff.1]
      split_ifs
      · exact ⟨hv, le_max_right M v⟩
      · rw [hα, hc]
        exact emaUpdate_bounds a v t.emaNanos 0 (max M v) ha0 ha1 hv
          (le_max_right M v) h0 (le_trans hM (le_max_left M v))
    have ih := processAll_ema_bounds a ha0 ha1 rest (t.Process v) (max M v)
      (heff.2.2.1.trans hα) (heff.2.2.2.trans hc) hstep.1 hstep.2
      (fun w hw => hpos w (List.mem_cons_of_mem v hw))
    exact ih

/-- Claim C10: for every sequence of non-negative samples processed from
a fresh tracker state (EMA 0, `alphaComp = 1024 - alpha`, any accepted
`alpha`), the EMA reported by `Value` stays non-negative and never
exceeds the maximum sample processed so far. -/
theorem ema_bounded_by_max_sample (t0 : EmaTracker) (samples : List Int)
    (ha0 : 0 ≤ t0.alpha) (ha1 : t0.alpha ≤ 1024)
    (hcomp : t0.alphaComp = 1024 - t0.alpha)
    (hema : t0.emaNanos = 0)
    (hpos : ∀ v ∈ samples, 0 ≤ v) :
    0 ≤ ((processAll t0 samples).Value).1.EMA ∧
    ((processAll t0 samples).Value).1.EMA ≤ samples.foldl max 0 := by
  have hV : ((processAll t0 samples).Value).1.EMA = (processAll t0 samples).emaNanos := rfl
  rw [hV]
  exact processAll_ema_bounds t0.alpha ha0 ha1 samples t0 0 rfl hcomp
    (le_of_eq hema.symm) (le_of_eq hema) hpos

/-- Witness for `ema_bounded_by_max_sample`: the default tracker after the
samples 5 and 3 has its EMA inside `[0, 5]`. -/
theorem ema_bounded_by_max_sample_witness :
    ((0 : Int) ≤ (NewTracker []).alpha ∧ (NewTracker []).alpha ≤ 1024 ∧
      (NewTracker []).emaNanos = 0) ∧
    (0 ≤ ((processAll (NewTracker []) [5, 3]).Value).1.EMA ∧
      ((processAll (NewTracker []) [5, 3]).Value).1.EMA ≤ [5, 3].foldl max 0) :=
  ⟨⟨by decide, by decide, by decide⟩,
   ema_bounded_by_max_sample (NewTracker []) [5, 3] (by decide) (by decide)
     (by decide) (by decide)
     (by intro v hv; fin_cases hv <;> decide)⟩

/-- One step of the fixed-point EMA recurrence moves the value at least
one nanosecond closer to the target until it is within
`⌊1023/α*⌋` ns of it, and never leaves that band. -/
theorem emaStep_dist (a v e : Int) (ha1 : 1 ≤ a) (ha2 : a ≤ 1024) :
    (v - Int.fdiv (a * v + (1024 - a) * e) 1024).natAbs ≤
      max ((v - e).natAbs - 1) (Int.ediv 1023 a).toNat := by
  have hrw : Int.fdiv (a * v + (1024 - a) * e) 1024 = e + (a * (v - e)) / 1024 := by
    rw [Int.fdiv_eq_ediv _ (by norm_num)]
    rw [show a * v + (1024 - a) * e = a * (v - e) + e * 1024 by ring]
    rw [Int.add_mul_ediv_right _ _ (by norm_num)]
    ring
  rw [hrw]
  have hq0 : 0 ≤ Int.ediv 1023 a := Int.ediv_nonneg (by norm_num) (by omega)
  rcases lt_trichotomy e v with h | h | h
  · have hs0 : 0 ≤ a * (v - e) / 1024 :=
      Int.ediv_nonneg (mul_nonneg (by omega) (by omega)) (by norm_num)
    have hsled : a * (v - e) / 1024 ≤ v - e := by
      calc a * (v - e) / 1024 ≤ 1024 * (v - e) / 1024 :=
            Int.ediv_le_ediv (by norm_num) (mul_le_mul_of_nonneg_right ha2 (by omega))
        _ = v - e := Int.mul_ediv_cancel_left _ (by norm_num)
    rcases le_or_lt (v - e) (Int.ediv 1023 a) with hle | hgt
    · omega
    · have h1 : (1023 : Int) < (Int.ediv 1023 a + 1) * a :=
        Int.lt_ediv_add_one_mul_self 1023 (by omega)
      have h2 : (Int.ediv 1023 a + 1) * a ≤ a * (v - e) := by
        rw [mul_comm a]
        exact mul_le_mul_of_nonneg_right (by omega) (by omega)
      have hs1 : 1 ≤ a * (v - e) / 1024 :=
        (Int.le_ediv_iff_mul_le (by norm_num)).2 (by linarith)
      omega
  · rw [h, sub_self, mul_zero, Int.zero_ediv]
    simp
  · have hneg : a * (v - e) < 0 := by
      have h1 : (0 : Int) < a := by omega
      have h2 : v - e < 0 := by omega
      exact mul_neg_of_pos_of_neg h1 h2
    have hupper : a * (v - e) / 1024 ≤ -1 := by
      have h3 : a * (v - e) / 1024 < 0 := Int.ediv_neg' hneg (by norm_num)
      omega
    have h2 : 1024 * (v - e) ≤ a * (v - e) := by
      exact mul_le_mul_of_nonpos_right ha2 (by omega)
    have hlower : v - e ≤ a * (v - e) / 1024 := by
      calc v - e = 1024 * (v - e) / 1024 :=
            (Int.mul_ediv_cancel_left _ (by norm_num)).symm
        _ ≤ a * (v - e) / 1024 := Int.ediv_le_ediv (by norm_num) h2
    omega

/-- Iterating the EMA recurrence shrinks the distance to the target by at
least one per step until it enters the `⌊1023/α*⌋` band, which is
absorbing. -/
theorem emaIter_dist (a v : Int) (ha1 : 1 ≤ a) (ha2 : a ≤ 1024) :
    ∀ (M : Nat) (e : Int),
      (v - emaIter a v e M).natAbs ≤
        max ((v - e).natAbs - M) (Int.ediv 1023 a).toNat
  | 0, e => by simp [emaIter]
  | M + 1, e => by
    have h1 := emaStep_dist a v e ha1 ha2
    have h2 := emaIter_dist a v ha1 ha2 M (Int.fdiv (a * v + (1024 - a) * e) 1024)
    have h3 : emaIter a v e (M + 1) =
        emaIter a v (Int.fdiv (a * v + (1024 - a) * e) 1024) M := rfl
    rw [h3]
    omega

/-- `processN` acts on `emaNanos` as the scalar recurrence `emaIter`, for
any tracker past its first sample with consistent `alphaComp`. -/
theorem processN_emaNanos (v : Int) :
    ∀ (M : Nat) (t : EmaTracker), t.emaSlice ≠ [] → t.alphaComp = 1024 - t.alpha →
      (processN t v M).emaNanos = emaIter t.alpha v t.emaNanos M
  | 0, _, _, _ => rfl
  | M + 1, t, hne, hcomp => by
    have heff := process_ema_effect t v
    have hlen : ¬ t.emaSlice.length = 0 := by
      simpa [List.length_eq_zero] using hne
    have hstep : (t.Process v).emaNanos =
        Int.fdiv (t.alpha * v + (1024 - t.alpha) * t.emaNanos) 1024 := by
      rw [heff.1, if_neg hlen, hcomp]
    have hcomp2 : (t.Process v).alphaComp = 1024 - (t.Process v).alpha := by
      rw [heff.2.2.2, heff.2.2.1, hcomp]
    have ih := processN_emaNanos v M (t.Process v) heff.2.1 hcomp2
    have h3 : processN t v (M + 1) = processN (t.Process v) v M := rfl
    rw [h3, ih, heff.2.2.1, hstep]
    rfl

/-- Claim C4 (amended): for every fixed-point smoothing factor
`1 ≤ α* ≤ 1024` and every target sample `v`, after `M` identical samples
with `M` at least the initial distance `|v - EMA₀|` in nanoseconds, the
tracker's EMA (as reported by `Value`) is within `⌊1023/α*⌋` ns of `v` —
starting from any prior EMA state.  The spec's 1 ns bound does not hold:
the truncating fixed-point update stalls up to `⌊1023/α*⌋` ns below the
target (10 ns for α = 0.1), and the spec's `(1-α)^M < 2⁻³⁰` condition on
`M` is also insufficient for arbitrarily distant prior states. -/
theorem ema_convergence_bound (t : EmaTracker) (v : Int) (M : Nat)
    (ha1 : 1 ≤ t.alpha) (ha2 : t.alpha ≤ 1024)
    (hcomp : t.alphaComp = 1024 - t.alpha)
    (hne : t.emaSlice ≠ [])
    (hM : (v - t.emaNanos).natAbs ≤ M) :
    (v - ((processN t v M).Value).1.EMA).natAbs ≤ (Int.ediv 1023 t.alpha).toNat := by
  have hV : ((processN t v M).Value).1.EMA = (processN t v M).emaNanos := rfl
  rw [hV, processN_emaNanos v M t hne hcomp]
  have := emaIter_dist t.alpha v ha1 ha2 M t.emaNanos
  omega

set_option maxRecDepth 8000 in
/-- Witness for `ema_convergence_bound`: from EMA 0, three samples of 3 ns
with α* = 510 bring the EMA within `⌊1023/510⌋ = 2` ns of 3. -/
theorem ema_convergence_bound_witness :
    ((1 : Int) ≤ c4tracker.alpha ∧ c4tracker.alpha ≤ 1024 ∧
      c4tracker.alphaComp = 1024 - c4tracker.alpha ∧ c4tracker.emaSlice ≠ [] ∧
      ((3 : Int) - c4tracker.emaNanos).natAbs ≤ 3) ∧
    ((3 : Int) - ((processN c4tracker 3 3).Value).1.EMA).natAbs ≤
      (Int.ediv 1023 c4tracker.alpha).toNat :=
  ⟨⟨by decide, by decide, by decide, by decide, by decide⟩,
   ema_convergence_bound c4tracker 3 3 (by decide) (by decide) (by decide)
     (by decide) (by decide)⟩

set_option maxRecDepth 8000 in
/-- Claim C4 counterexample: α = 0.498046875 (float32-exact, fixed point
α* = 510) and v = 100 ns, starting from the prior EMA state 0.  M = 31
satisfies the spec's `(1-α)^M < 2⁻³⁰` condition, yet after 31 identical
samples the EMA sits at 98 ns — 2 ns below v, not within 1 ns, and it
stays there forever: the integer update freezes as soon as
`α*·(v - EMA) < 1024`. -/
theorem ema_convergence_counterexample :
    ((1 : ℚ) - 510 / 1024) ^ 31 < (1 / 2 : ℚ) ^ 30 ∧
    ((processN c4tracker 100 31).Value).1.EMA = 98 ∧
    1 < ((100 : Int) - ((processN c4tracker 100 31).Value).1.EMA).natAbs ∧
    ((processN c4tracker 100 62).Value).1.EMA = 98 := by
  refine ⟨by norm_num, by decide, by decide, by decide⟩

/-- Overwriting any slot of a constant reservoir with the same value
leaves it unchanged. -/
theorem set_replicate : ∀ (k i : Nat),
    (List.replicate k (7 : Int)).set i 7 = List.replicate k 7
  | 0, _ => rfl
  | _ + 1, 0 => rfl
  | k + 1, i + 1 => congrArg (List.cons 7) (set_replicate k i)

/-- One `Process` call on the post-`Value` full-reservoir state, while the
rolling index stays at most 100 ahead of the last calculation index:
the cache flag is untouched. -/
theorem c3_step (n i : Nat) (valid : Bool) (hi : i + 1 ≤ 100) :
    (c3state n i valid).Process 7 = c3state (n + 1) (i + 1) valid := by
  have hmod : (i + 1) % 1000 = i + 1 := by omega
  unfold EmaTracker.Process processEmaSection processPercentileSection c3state
  dsimp only
  by_cases h8 : (n + 1) % 8 = 0 <;>
    simp only [h8, if_true, if_false, set_replicate, List.length_replicate, hmod] <;>
    norm_num [set_replicate, hmod, calculateTrend]
  all_goals cases valid
  all_goals first
    | (rw [if_pos (Or.inr rfl)]; rfl)
    | (rw [if_neg (by simp; omega)]; rfl)

/-- The 101st `Process` call after a `Value` on the full reservoir crosses
the `K/10 = 100` threshold and marks the cache invalid. -/
theorem c3_step_invalidate (n : Nat) :
    (c3state n 100 true).Process 7 = c3state (n + 1) 101 false := by
  have hmod : (101 : Nat) % 1000 = 101 := by omega
  unfold EmaTracker.Process processEmaSection processPercentileSection c3state
  dsimp only
  by_cases h8 : (n + 1) % 8 = 0 <;>
    simp only [h8, if_true, if_false, set_replicate, List.length_replicate, hmod] <;>
    norm_num [set_replicate, hmod, calculateTrend]
  all_goals decide

/-- Peeling the last `Process` call off an iteration. -/
theorem processN_succ_back (v : Int) : ∀ (k : Nat) (t : EmaTracker),
    processN t v (k + 1) = (processN t v k).Process v
  | 0, _ => rfl
  | k + 1, t => processN_succ_back v k (t.Process v)

/-- Iterating `c3_step`: up to 100 inserted samples after a `Value` on the
full reservoir advance only the counters and leave the cache flag
untouched. -/
theorem c3_processN : ∀ (k n i : Nat) (valid : Bool), i + k ≤ 100 →
    processN (c3state n i valid) 7 k = c3state (n + k) (i + k) valid := by
  intro k
  induction k with
  | zero =>
    intro n i valid _
    simp [processN]
  | succ k ih =>
    intro n i valid h
    have h1 : processN (c3state n i valid) 7 (k + 1) =
        processN ((c3state n i valid).Process 7) 7 k := rfl
    rw [h1, c3_step n i valid (by omega), ih (n + 1) (i + 1) valid (by omega)]
    congr 1 <;> omega

set_option maxRecDepth 20000 in
/-- Claim C3 (amended): with reservoir size K = 1000, the cache is marked
invalid on a `Process` call exactly when the rolling overwrite index has
moved more than `K/10 = 100` slots past the index stored by the last
recomputation; the rolling index only advances once the reservoir is
full.  Hence on a full reservoir, 100 samples inserted between two
`Value()` calls do *not* force a recomputation on the second call — 101
do; and while the reservoir is still filling, the index stays 0 and no
number of inserted samples invalidates a previously computed cache. -/
theorem percentile_cache_threshold :
    (∀ n : Nat, valueRecomputes (processN (c3state n 0 true) 7 100) = false) ∧
    (∀ n : Nat, valueRecomputes (processN (c3state n 0 true) 7 101) = true) := by
  constructor
  · intro n
    rw [show (100 : Nat) = 0 + 100 by omega] at *
    rw [c3_processN 100 n 0 true (by omega)]
    rfl
  · intro n
    rw [show (101 : Nat) = 100 + 1 from rfl, processN_succ_back,
        c3_processN 100 n 0 true (by omega), c3_step_invalidate]
    rfl

set_option maxRecDepth 20000 in
/-- Claim C3 counterexample, on a tracker created with
`NewTracker(WithPercentiles(1000))` and exercised only through `Process`
and `Value`: prime with 10 samples of 7 ns; the first `Value()` call
recomputes (first conjunct).  Insert 100 further samples and call
`Value()` again: the claim says this forces exactly one recomputation,
but no recomputation happens (second conjunct) — during the filling
phase `sampleIndex` never advances, so
`(sampleIndex - lastCalcWriteIndex) mod K` stays 0 and the cache is never
invalidated. -/
theorem percentile_cache_counterexample :
    valueRecomputes (processN c3fresh 7 10) = true ∧
    valueRecomputes (processN ((processN c3fresh 7 10).Value).2 7 100) = false :=
  ⟨by decide, by decide⟩

end Floodgate
